import Mathlib

/-!
Verification model of the downsizing analyzer engine (`src/app/page.tsx`).
The pure computational core — the helpers `pct`, `amortizationPayment`,
`growAnnual`, `npv` and the `simulate` function — is embedded over the
rationals, with JS numbers modelled by `ℚ`, the horizon and mortgage term
(whole years in the UI) by `ℕ`, and the scenario labels by a small
inductive tag type.  The yearly loop of `simulate` becomes explicit state
passing (`stepYear` / `runYears`), and the inner monthly amortization loop
with its early break becomes the recursion `amortYear`.
-/

namespace Downsize

/-- The `Inputs` record of the page: every assumption consumed by `simulate`.
Rates are percentage points, exactly as at the source's boundary. -/
structure Inputs where
  currentHomeValue : ℚ
  currentMortgageBalance : ℚ
  sellingCostsPct : ℚ
  capGainsTaxPct : ℚ
  currentHomeAppreciationPct : ℚ
  smallerHomePrice : ℚ
  smallerHomeClosingPct : ℚ
  downPaymentFromProceedsPct : ℚ
  mortgageRatePct : ℚ
  mortgageYears : ℕ
  propertyTaxPct : ℚ
  insuranceAnnual : ℚ
  hoaMonthly : ℚ
  maintenancePct : ℚ
  homeAppreciationPct : ℚ
  monthlyRent : ℚ
  rentAnnualInflationPct : ℚ
  includeStorage : Bool
  storageMonthly : ℚ
  storageAnnualInflationPct : ℚ
  useIVV : Bool
  ivvAnnualReturnPct : ℚ
  investReturnPct : ℚ
  returnAdjustPct : ℚ
  investTaxDragPct : ℚ
  investShareA : ℚ
  investShareB : ℚ
  investShareC : ℚ
  keepPropertyTaxAnnual : ℚ
  keepInsuranceAnnual : ℚ
  keepHoaMonthly : ℚ
  keepExtraMaintAnnual : ℚ
  years : ℕ
  discountRatePct : ℚ
deriving DecidableEq

/-- Helper `pct`: percentage points to a fraction (`x / 100`). -/
def pct (x : ℚ) : ℚ := x / 100

/-- `amortizationPayment(principal, annualRatePct, years)`: fixed monthly
payment; straight-line when the monthly rate is zero, otherwise the annuity
formula with `Math.pow(1 + r, -n)` rendered as an integer power. -/
def amortizationPayment (principal annualRatePct : ℚ) (years : ℕ) : ℚ :=
  if pct annualRatePct / 12 = 0 then principal / ((years * 12 : ℕ) : ℚ)
  else
    principal * (pct annualRatePct / 12)
      / (1 - (1 + pct annualRatePct / 12) ^ (-((years * 12 : ℕ) : ℤ)))

/-- `growAnnual(value, ratePct, years)`: compound growth. -/
def growAnnual (value ratePct : ℚ) (years : ℕ) : ℚ :=
  value * (1 + pct ratePct) ^ years

/-- The indexed reduce inside `npv`: entry at position `t` is discounted by
`(1 + r) ^ t`. -/
def npvAux (r : ℚ) : ℕ → List ℚ → ℚ
  | _, [] => 0
  | t, cf :: rest => cf / (1 + r) ^ t + npvAux r (t + 1) rest

/-- `npv(cashflows, discountRatePct)` from the page. -/
def npv (cashflows : List ℚ) (discountRatePct : ℚ) : ℚ :=
  npvAux (pct discountRatePct) 0 cashflows

/-- Net sale proceeds of the current home (top of `simulate`). -/
def netProceeds (I : Inputs) : ℚ :=
  let grossSale := I.currentHomeValue
  let sellingCosts := grossSale * pct I.sellingCostsPct
  let equityBeforeTax := grossSale - I.currentMortgageBalance - sellingCosts
  let capGainsTax := max 0 equityBeforeTax * pct I.capGainsTaxPct
  equityBeforeTax - capGainsTax

/-- Net investment return assumption in percentage points
(`baseline + returnAdjustPct - investTaxDragPct`). -/
def investNetRate (I : Inputs) : ℚ :=
  (if I.useIVV then I.ivvAnnualReturnPct else I.investReturnPct)
    + I.returnAdjustPct - I.investTaxDragPct

/-- Down payment taken from the sale proceeds for scenario B. -/
def dpB (I : Inputs) : ℚ := netProceeds I * pct I.downPaymentFromProceedsPct

/-- Mortgage principal for the smaller home (clamped at zero). -/
def mortgagePrincipalB (I : Inputs) : ℚ := max 0 (I.smallerHomePrice - dpB I)

/-- Fixed monthly mortgage payment for scenario B. -/
def mortgagePayment (I : Inputs) : ℚ :=
  amortizationPayment (mortgagePrincipalB I) I.mortgageRatePct I.mortgageYears

/-- Monthly mortgage rate for scenario B. -/
def monthlyMortgageRate (I : Inputs) : ℚ := pct I.mortgageRatePct / 12

/-- Uninvested cash kept aside in scenario C. -/
def cashC (I : Inputs) : ℚ := netProceeds I * (1 - pct I.investShareC)

/-- One month of the scenario-B amortization loop body (without the break):
`balance - min(payment - balance*monthlyRate, balance)`. -/
def amortStep (payment mrate bal : ℚ) : ℚ :=
  bal - min (payment - bal * mrate) bal

/-- The inner `for (m = 0; m < 12; ...)` loop of `simulate`: advances the
balance by up to the given number of months, accumulating interest, and
stops early once the balance falls to `1e-6` or below.  Returns the final
balance and the interest paid. -/
def amortYear (payment mrate : ℚ) : ℕ → ℚ → ℚ × ℚ
  | 0, bal => (bal, 0)
  | m + 1, bal =>
    let interest := bal * mrate
    let principalPaid := min (payment - interest) bal
    let bal2 := bal - principalPaid
    if bal2 ≤ 1 / 1000000 then (bal2, interest)
    else
      let rest := amortYear payment mrate m bal2
      (rest.1, interest + rest.2)

/-- The mutable variables of the yearly loop in `simulate`. -/
structure SimState where
  investA : ℚ
  investB : ℚ
  investC : ℚ
  rent : ℚ
  storage : ℚ
  homeValueB : ℚ
  keepHomeValue : ℚ
  remainingPrincipal : ℚ
deriving DecidableEq

/-- One entry of `yearlyData` (the per-year snapshot pushed by `simulate`;
`remainingPrincipal` here is the clamped `max(0, remainingPrincipal)`). -/
structure Snapshot where
  year : ℕ
  netWorthA : ℚ
  netWorthB : ℚ
  netWorthC : ℚ
  netWorthD : ℚ
  investA : ℚ
  investB : ℚ
  investC : ℚ
  outA : ℚ
  homeCostsB : ℚ
  outC : ℚ
  outD : ℚ
  remainingPrincipal : ℚ
  homeValueB : ℚ
  keepHomeValue : ℚ
deriving DecidableEq

/-- Default snapshot, used only as the out-of-range default of `List.getD`. -/
def dSnap : Snapshot := ⟨0, 0, 0, 0, 0, 0, 0, 0, 0, 0, 0, 0, 0, 0, 0⟩

/-- The body of `for (let y = 1; y <= I.years; y++)` in `simulate`: one year
of all four scenarios, returning the next state and the year's snapshot. -/
def stepYear (I : Inputs) (y : ℕ) (st : SimState) : SimState × Snapshot :=
  let investA := growAnnual st.investA (investNetRate I) 1
  let investB := growAnnual st.investB (investNetRate I) 1
  let investC := growAnnual st.investC (investNetRate I) 1
  let rentAnnual := st.rent * 12
  let storageAnnual := (if I.includeStorage then st.storage else 0) * 12
  let rentNext := st.rent * (1 + pct I.rentAnnualInflationPct)
  let storageNext := st.storage * (1 + pct I.storageAnnualInflationPct)
  let outA := rentAnnual + storageAnnual
  let am := amortYear (mortgagePayment I) (monthlyMortgageRate I) 12 st.remainingPrincipal
  let remainingPrincipal := am.1
  let interestPaidYear := am.2
  let propertyTaxB := st.homeValueB * pct I.propertyTaxPct
  let maintenanceB := st.homeValueB * pct I.maintenancePct
  let hoaB := I.hoaMonthly * 12
  let homeCostsB := interestPaidYear + propertyTaxB + maintenanceB + I.insuranceAnnual + hoaB
  let homeValueB := growAnnual st.homeValueB I.homeAppreciationPct 1
  let outC := rentAnnual + storageAnnual
  let hoaD := I.keepHoaMonthly * 12
  let outD := I.keepPropertyTaxAnnual + I.keepInsuranceAnnual + hoaD + I.keepExtraMaintAnnual
  let keepHomeValue := growAnnual st.keepHomeValue I.currentHomeAppreciationPct 1
  let netWorthA := investA - outA
  let netWorthB := investB + homeValueB - remainingPrincipal - homeCostsB
  let netWorthC := investC + cashC I - outC
  let netWorthD := keepHomeValue - outD
  (⟨investA, investB, investC, rentNext, storageNext, homeValueB, keepHomeValue,
      remainingPrincipal⟩,
   ⟨y, netWorthA, netWorthB, netWorthC, netWorthD, investA, investB, investC,
      outA, homeCostsB, outC, outD, max 0 remainingPrincipal, homeValueB, keepHomeValue⟩)

/-- Starting values of the loop variables in `simulate`. -/
def initState (I : Inputs) : SimState :=
  { investA := netProceeds I * pct I.investShareA
    investB := (netProceeds I - dpB I) * pct I.investShareB
    investC := netProceeds I * pct I.investShareC
    rent := I.monthlyRent
    storage := I.storageMonthly
    homeValueB := I.smallerHomePrice
    keepHomeValue := I.currentHomeValue
    remainingPrincipal := mortgagePrincipalB I }

/-- State after one year (the first component of `stepYear`, which does not
depend on the year counter). -/
def nextState (I : Inputs) (st : SimState) : SimState := (stepYear I 0 st).1

/-- Iterated yearly state: the loop variables after `n` completed years. -/
def stateFrom (I : Inputs) (st : SimState) : ℕ → SimState
  | 0 => st
  | n + 1 => nextState I (stateFrom I st n)

/-- The yearly loop: `k` more years starting at year counter `y`. -/
def runYears (I : Inputs) : ℕ → ℕ → SimState → List Snapshot
  | 0, _, _ => []
  | k + 1, y, st => (stepYear I y st).2 :: runYears I k (y + 1) (stepYear I y st).1

/-- The `yearlyData` array produced by `simulate`. -/
def yearlyData (I : Inputs) : List Snapshot := runYears I I.years 1 (initState I)

/-- Snapshot of year `i + 1` (zero-based index into `yearlyData`). -/
def snapAt (I : Inputs) (i : ℕ) : Snapshot := (yearlyData I).getD i dSnap

/-- Remaining scenario-B loan principal after `n` completed years. -/
def rpYear (I : Inputs) (n : ℕ) : ℚ := (stateFrom I (initState I) n).remainingPrincipal

/-- `cashflowsA`: zero upfront, then the negated annual outflows. -/
def cashflowsA (I : Inputs) : List ℚ :=
  0 :: (yearlyData I).map (fun s => -s.outA)

/-- `cashflowsB`: closing costs plus down payment upfront (negated), then the
negated annual home costs. -/
def cashflowsB (I : Inputs) : List ℚ :=
  (-(I.smallerHomePrice * pct I.smallerHomeClosingPct) - dpB I)
    :: (yearlyData I).map (fun s => -s.homeCostsB)

/-- `cashflowsC`: zero upfront, then the negated annual outflows. -/
def cashflowsC (I : Inputs) : List ℚ :=
  0 :: (yearlyData I).map (fun s => -s.outC)

/-- `cashflowsD`: zero upfront, then the negated annual keep-home outflows. -/
def cashflowsD (I : Inputs) : List ℚ :=
  0 :: (yearlyData I).map (fun s => -s.outD)

/-- `yearlyData.at(-1)` of `simulate`. -/
def lastSnap (I : Inputs) : Option Snapshot := (yearlyData I).getLast?

/-- Terminal value of scenario A (`?? 0` on the empty horizon). -/
def terminalA (I : Inputs) : ℚ :=
  match lastSnap I with
  | none => 0
  | some s => s.investA

/-- Terminal value of scenario B (home value minus the clamped remaining
principal plus invested balance). -/
def terminalB (I : Inputs) : ℚ :=
  match lastSnap I with
  | none => 0
  | some s => s.homeValueB - s.remainingPrincipal + s.investB

/-- Terminal value of scenario C (invested balance plus held cash). -/
def terminalC (I : Inputs) : ℚ :=
  (match lastSnap I with
   | none => 0
   | some s => s.investC) + cashC I

/-- Terminal value of scenario D (the kept home's value). -/
def terminalD (I : Inputs) : ℚ :=
  match lastSnap I with
  | none => 0
  | some s => s.keepHomeValue

/-- `npvA` of `simulate`: the cash-flow vector with the terminal appended. -/
def npvA (I : Inputs) : ℚ := npv (cashflowsA I ++ [terminalA I]) I.discountRatePct

/-- `npvB` of `simulate`. -/
def npvB (I : Inputs) : ℚ := npv (cashflowsB I ++ [terminalB I]) I.discountRatePct

/-- `npvC` of `simulate`. -/
def npvC (I : Inputs) : ℚ := npv (cashflowsC I ++ [terminalC I]) I.discountRatePct

/-- `npvD` of `simulate`. -/
def npvD (I : Inputs) : ℚ := npv (cashflowsD I ++ [terminalD I]) I.discountRatePct

/-- Scenario labels in the fixed order A, B, C, D. -/
inductive SKey where
  | A
  | B
  | C
  | D
deriving DecidableEq

/-- One `results` entry: label, NPV and terminal value (the presentational
color fields of the source are dropped). -/
structure Result where
  key : SKey
  npv : ℚ
  terminal : ℚ
deriving DecidableEq

instance : Inhabited Result := ⟨⟨SKey.A, 0, 0⟩⟩

/-- The four `results.push(...)` entries of `simulate`, in source order. -/
def results (I : Inputs) : List Result :=
  [⟨SKey.A, npvA I, terminalA I⟩,
   ⟨SKey.B, npvB I, terminalB I⟩,
   ⟨SKey.C, npvC I, terminalC I⟩,
   ⟨SKey.D, npvD I, terminalD I⟩]

/-- The whole return value of `simulate`. -/
structure SimOutput where
  netProceeds : ℚ
  yearlyData : List Snapshot
  results : List Result
deriving DecidableEq

/-- The `simulate` function: net proceeds, yearly snapshots, four results. -/
def simulate (I : Inputs) : SimOutput :=
  ⟨netProceeds I, yearlyData I, results I⟩

/-- Stable insertion into a list sorted descending by NPV: the new element
goes after every element with NPV at least its own, as a stable sort does. -/
def insertByNpv (x : Result) : List Result → List Result
  | [] => [x]
  | y :: ys => if y.npv < x.npv then x :: y :: ys else y :: insertByNpv x ys

/-- Model of `[...results].sort((a, b) => b.npv - a.npv)`: a stable sort,
descending by NPV (JS `Array.prototype.sort` is stable). -/
def sortByNpvDesc (l : List Result) : List Result :=
  l.foldl (fun acc x => insertByNpv x acc) []

/-- The `best` scenario of the page: first element of the sorted results. -/
def bestScenario (I : Inputs) : Result := (sortByNpvDesc (results I)).headI

/-- The default assumptions of the page (initial `useState` values). -/
def I0 : Inputs :=
  { currentHomeValue := 1300000
    currentMortgageBalance := 0
    sellingCostsPct := 6
    capGainsTaxPct := 0
    currentHomeAppreciationPct := 3
    smallerHomePrice := 700000
    smallerHomeClosingPct := 2.5
    downPaymentFromProceedsPct := 50
    mortgageRatePct := 6.5
    mortgageYears := 30
    propertyTaxPct := 2.1
    insuranceAnnual := 2500
    hoaMonthly := 250
    maintenancePct := 1
    homeAppreciationPct := 3
    monthlyRent := 4500
    rentAnnualInflationPct := 3
    includeStorage := true
    storageMonthly := 350
    storageAnnualInflationPct := 3
    useIVV := true
    ivvAnnualReturnPct := 8
    investReturnPct := 6.5
    returnAdjustPct := 0
    investTaxDragPct := 0.5
    investShareA := 100
    investShareB := 50
    investShareC := 50
    keepPropertyTaxAnnual := 13500
    keepInsuranceAnnual := 7000
    keepHoaMonthly := 180
    keepExtraMaintAnnual := 2500
    years := 15
    discountRatePct := 5.5 }

/-- A variant of `I0` that changes many sale, purchase, rent, storage and
investment inputs while keeping every field scenario D reads. -/
def I0q : Inputs :=
  { I0 with
    currentMortgageBalance := 250000
    sellingCostsPct := 1
    capGainsTaxPct := 15
    smallerHomePrice := 1
    smallerHomeClosingPct := 9
    downPaymentFromProceedsPct := 10
    mortgageRatePct := 2
    mortgageYears := 5
    propertyTaxPct := 0
    insuranceAnnual := 1
    hoaMonthly := 2
    maintenancePct := 3
    homeAppreciationPct := 7
    monthlyRent := 9999
    rentAnnualInflationPct := 1
    includeStorage := false
    storageMonthly := 10
    storageAnnualInflationPct := 2
    useIVV := false
    ivvAnnualReturnPct := 1
    investReturnPct := 2
    returnAdjustPct := 3
    investTaxDragPct := 4
    investShareA := 7
    investShareB := 8
    investShareC := 9 }

/-- A small input with equal invested shares for A and C, storage disabled,
a one-year horizon and a zero discount rate. -/
def I2 : Inputs :=
  { currentHomeValue := 100
    currentMortgageBalance := 0
    sellingCostsPct := 0
    capGainsTaxPct := 0
    currentHomeAppreciationPct := 0
    smallerHomePrice := 0
    smallerHomeClosingPct := 0
    downPaymentFromProceedsPct := 0
    mortgageRatePct := 0
    mortgageYears := 1
    propertyTaxPct := 0
    insuranceAnnual := 0
    hoaMonthly := 0
    maintenancePct := 0
    homeAppreciationPct := 0
    monthlyRent := 0
    rentAnnualInflationPct := 0
    includeStorage := false
    storageMonthly := 0
    storageAnnualInflationPct := 0
    useIVV := false
    ivvAnnualReturnPct := 0
    investReturnPct := 0
    returnAdjustPct := 0
    investTaxDragPct := 0
    investShareA := 50
    investShareB := 0
    investShareC := 50
    keepPropertyTaxAnnual := 0
    keepInsuranceAnnual := 0
    keepHoaMonthly := 0
    keepExtraMaintAnnual := 0
    years := 1
    discountRatePct := 0 }

/-- A degenerate input: zero-length horizon and zero-length mortgage term. -/
def I3 : Inputs :=
  { currentHomeValue := 0
    currentMortgageBalance := 0
    sellingCostsPct := 0
    capGainsTaxPct := 0
    currentHomeAppreciationPct := 0
    smallerHomePrice := 0
    smallerHomeClosingPct := 0
    downPaymentFromProceedsPct := 0
    mortgageRatePct := 0
    mortgageYears := 0
    propertyTaxPct := 0
    insuranceAnnual := 0
    hoaMonthly := 0
    maintenancePct := 0
    homeAppreciationPct := 0
    monthlyRent := 0
    rentAnnualInflationPct := 0
    includeStorage := false
    storageMonthly := 0
    storageAnnualInflationPct := 0
    useIVV := false
    ivvAnnualReturnPct := 0
    investReturnPct := 0
    returnAdjustPct := 0
    investTaxDragPct := 0
    investShareA := 0
    investShareB := 0
    investShareC := 0
    keepPropertyTaxAnnual := 0
    keepInsuranceAnnual := 0
    keepHoaMonthly := 0
    keepExtraMaintAnnual := 0
    years := 0
    discountRatePct := 0 }

theorem growAnnual_one (v r : ℚ) : growAnnual v r 1 = v * (1 + pct r) := by
  simp [growAnnual]

theorem stepYear_fst (I : Inputs) (y : ℕ) (st : SimState) :
    (stepYear I y st).1 = nextState I st := rfl

theorem nextState_investA (I : Inputs) (st : SimState) :
    (nextState I st).investA = growAnnual st.investA (investNetRate I) 1 := rfl

theorem nextState_investB (I : Inputs) (st : SimState) :
    (nextState I st).investB = growAnnual st.investB (investNetRate I) 1 := rfl

theorem nextState_investC (I : Inputs) (st : SimState) :
    (nextState I st).investC = growAnnual st.investC (investNetRate I) 1 := rfl

theorem nextState_rent (I : Inputs) (st : SimState) :
    (nextState I st).rent = st.rent * (1 + pct I.rentAnnualInflationPct) := rfl

theorem nextState_storage (I : Inputs) (st : SimState) :
    (nextState I st).storage = st.storage * (1 + pct I.storageAnnualInflationPct) := rfl

theorem nextState_keepHomeValue (I : Inputs) (st : SimState) :
    (nextState I st).keepHomeValue = growAnnual st.keepHomeValue I.currentHomeAppreciationPct 1 := rfl

theorem nextState_remainingPrincipal (I : Inputs) (st : SimState) :
    (nextState I st).remainingPrincipal
      = (amortYear (mortgagePayment I) (monthlyMortgageRate I) 12 st.remainingPrincipal).1 := rfl

theorem stepYear_outA (I : Inputs) (y : ℕ) (st : SimState) :
    (stepYear I y st).2.outA
      = st.rent * 12 + (if I.includeStorage then st.storage else 0) * 12 := rfl

theorem stepYear_outC_eq_outA (I : Inputs) (y : ℕ) (st : SimState) :
    (stepYear I y st).2.outC = (stepYear I y st).2.outA := rfl

theorem stepYear_investA (I : Inputs) (y : ℕ) (st : SimState) :
    (stepYear I y st).2.investA = growAnnual st.investA (investNetRate I) 1 := rfl

theorem stepYear_investC (I : Inputs) (y : ℕ) (st : SimState) :
    (stepYear I y st).2.investC = growAnnual st.investC (investNetRate I) 1 := rfl

theorem stepYear_netWorthA (I : Inputs) (y : ℕ) (st : SimState) :
    (stepYear I y st).2.netWorthA = (stepYear I y st).2.investA - (stepYear I y st).2.outA := rfl

theorem stepYear_netWorthC (I : Inputs) (y : ℕ) (st : SimState) :
    (stepYear I y st).2.netWorthC
      = (stepYear I y st).2.investC + cashC I - (stepYear I y st).2.outC := rfl

theorem stepYear_outD (I : Inputs) (y : ℕ) (st : SimState) :
    (stepYear I y st).2.outD
      = I.keepPropertyTaxAnnual + I.keepInsuranceAnnual + I.keepHoaMonthly * 12
          + I.keepExtraMaintAnnual := rfl

theorem stepYear_keepHomeValue (I : Inputs) (y : ℕ) (st : SimState) :
    (stepYear I y st).2.keepHomeValue
      = growAnnual st.keepHomeValue I.currentHomeAppreciationPct 1 := rfl

theorem stepYear_netWorthD (I : Inputs) (y : ℕ) (st : SimState) :
    (stepYear I y st).2.netWorthD
      = (stepYear I y st).2.keepHomeValue - (stepYear I y st).2.outD := rfl

theorem stepYear_rp (I : Inputs) (y : ℕ) (st : SimState) :
    (stepYear I y st).2.remainingPrincipal
      = max 0 ((amortYear (mortgagePayment I) (monthlyMortgageRate I) 12
          st.remainingPrincipal).1) := rfl

theorem initState_investA (I : Inputs) :
    (initState I).investA = netProceeds I * pct I.investShareA := rfl

theorem initState_investC (I : Inputs) :
    (initState I).investC = netProceeds I * pct I.investShareC := rfl

theorem initState_rent (I : Inputs) : (initState I).rent = I.monthlyRent := rfl

theorem initState_storage (I : Inputs) : (initState I).storage = I.storageMonthly := rfl

theorem initState_keepHomeValue (I : Inputs) :
    (initState I).keepHomeValue = I.currentHomeValue := rfl

theorem initState_rp (I : Inputs) :
    (initState I).remainingPrincipal = mortgagePrincipalB I := rfl

theorem stateFrom_shift (I : Inputs) (st : SimState) :
    ∀ n, stateFrom I (nextState I st) n = stateFrom I st (n + 1) := by
  intro n
  induction n with
  | zero => rfl
  | succ n ih =>
    show nextState I (stateFrom I (nextState I st) n) = _
    rw [ih]
    rfl

theorem runYears_length (I : Inputs) (k : ℕ) :
    ∀ y st, (runYears I k y st).length = k := by
  induction k with
  | zero => intro y st; rfl
  | succ k ih => intro y st; simp [runYears, ih]

theorem length_yearlyData (I : Inputs) : (yearlyData I).length = I.years :=
  runYears_length I I.years 1 (initState I)

theorem runYears_getD (I : Inputs) :
    ∀ (k : ℕ) (st : SimState) (y i : ℕ), i < k →
      (runYears I k y st).getD i dSnap
        = (stepYear I (y + i) (stateFrom I st i)).2 := by
  intro k
  induction k with
  | zero => intro st y i h; exact absurd h (Nat.not_lt_zero i)
  | succ k ih =>
    intro st y i h
    cases i with
    | zero => simp [runYears, stateFrom]
    | succ i =>
      have h2 : i < k := by omega
      have step : (runYears I (k + 1) y st).getD (i + 1) dSnap
          = (runYears I k (y + 1) (nextState I st)).getD i dSnap := by
        simp [runYears, stepYear_fst, List.getD_cons_succ]
      rw [step, ih (nextState I st) (y + 1) i h2, stateFrom_shift]
      have harith : y + 1 + i = y + (i + 1) := by omega
      rw [harith]

theorem snapAt_eq (I : Inputs) (i : ℕ) (h : i < I.years) :
    snapAt I i = (stepYear I (1 + i) (stateFrom I (initState I) i)).2 :=
  runYears_getD I I.years (initState I) 1 i h

theorem stateFrom_investA (I : Inputs) (st : SimState) :
    ∀ n, (stateFrom I st n).investA = st.investA * (1 + pct (investNetRate I)) ^ n := by
  intro n
  induction n with
  | zero => simp [stateFrom]
  | succ n ih =>
    show (nextState I (stateFrom I st n)).investA = _
    rw [nextState_investA, growAnnual_one, ih, pow_succ, mul_assoc]

theorem stateFrom_investC (I : Inputs) (st : SimState) :
    ∀ n, (stateFrom I st n).investC = st.investC * (1 + pct (investNetRate I)) ^ n := by
  intro n
  induction n with
  | zero => simp [stateFrom]
  | succ n ih =>
    show (nextState I (stateFrom I st n)).investC = _
    rw [nextState_investC, growAnnual_one, ih, pow_succ, mul_assoc]

theorem stateFrom_rent (I : Inputs) (st : SimState) :
    ∀ n, (stateFrom I st n).rent = st.rent * (1 + pct I.rentAnnualInflationPct) ^ n := by
  intro n
  induction n with
  | zero => simp [stateFrom]
  | succ n ih =>
    show (nextState I (stateFrom I st n)).rent = _
    rw [nextState_rent, ih, pow_succ, mul_assoc]

theorem stateFrom_storage (I : Inputs) (st : SimState) :
    ∀ n, (stateFrom I st n).storage
      = st.storage * (1 + pct I.storageAnnualInflationPct) ^ n := by
  intro n
  induction n with
  | zero => simp [stateFrom]
  | succ n ih =>
    show (nextState I (stateFrom I st n)).storage = _
    rw [nextState_storage, ih, pow_succ, mul_assoc]

theorem stateFrom_keepHomeValue (I : Inputs) (st : SimState) :
    ∀ n, (stateFrom I st n).keepHomeValue
      = st.keepHomeValue * (1 + pct I.currentHomeAppreciationPct) ^ n := by
  intro n
  induction n with
  | zero => simp [stateFrom]
  | succ n ih =>
    show (nextState I (stateFrom I st n)).keepHomeValue = _
    rw [nextState_keepHomeValue, growAnnual_one, ih, pow_succ, mul_assoc]

theorem stateFrom_rp (I : Inputs) (st : SimState) (n : ℕ) :
    (stateFrom I st (n + 1)).remainingPrincipal
      = (amortYear (mortgagePayment I) (monthlyMortgageRate I) 12
          (stateFrom I st n).remainingPrincipal).1 :=
  nextState_remainingPrincipal I (stateFrom I st n)

theorem npvAux_append (r x : ℚ) :
    ∀ (l : List ℚ) (t : ℕ),
      npvAux r t (l ++ [x]) = npvAux r t l + x / (1 + r) ^ (t + l.length) := by
  intro l
  induction l with
  | nil => intro t; simp [npvAux]
  | cons a l ih =>
    intro t
    show a / (1 + r) ^ t + npvAux r (t + 1) (l ++ [x])
        = a / (1 + r) ^ t + npvAux r (t + 1) l + x / (1 + r) ^ (t + (l.length + 1))
    rw [ih (t + 1)]
    have harith : t + 1 + l.length = t + (l.length + 1) := by omega
    rw [harith]
    exact (add_assoc _ _ _).symm

theorem npvAux_map (r : ℚ) (f : Snapshot → ℚ) :
    ∀ (l : List Snapshot) (t : ℕ),
      npvAux r t (l.map f)
        = ∑ i ∈ Finset.range l.length, f (l.getD i dSnap) / (1 + r) ^ (t + i) := by
  intro l
  induction l with
  | nil => intro t; simp [npvAux]
  | cons a l ih =>
    intro t
    rw [List.map_cons]
    show f a / (1 + r) ^ t + npvAux r (t + 1) (l.map f) = _
    rw [List.length_cons, Finset.sum_range_succ', ih (t + 1)]
    simp only [List.getD_cons_succ, List.getD_cons_zero, Nat.add_zero]
    rw [add_comm]
    congr 1
    refine Finset.sum_congr rfl ?_
    intro i _
    have harith : t + 1 + i = t + (i + 1) := by omega
    rw [harith]

theorem npvA_eq (I : Inputs) :
    npvA I
      = 0 / (1 + pct I.discountRatePct) ^ (0 : ℕ)
        + (∑ y ∈ Finset.range I.years,
            -(snapAt I y).outA / (1 + pct I.discountRatePct) ^ (y + 1))
        + terminalA I / (1 + pct I.discountRatePct) ^ (I.years + 1) := by
  show npvAux (pct I.discountRatePct) 0 (cashflowsA I ++ [terminalA I]) = _
  rw [cashflowsA, List.cons_append]
  show 0 / (1 + pct I.discountRatePct) ^ (0 : ℕ)
      + npvAux (pct I.discountRatePct) 1 ((yearlyData I).map (fun s => -s.outA) ++ [terminalA I]) = _
  rw [npvAux_append, npvAux_map, List.length_map, length_yearlyData]
  have harith : 1 + I.years = I.years + 1 := by omega
  rw [harith, add_assoc]
  congr 2
  refine Finset.sum_congr rfl ?_
  intro i _
  have harith2 : 1 + i = i + 1 := by omega
  rw [harith2]
  rfl

theorem npvB_eq (I : Inputs) :
    npvB I
      = (-(I.smallerHomePrice * pct I.smallerHomeClosingPct) - dpB I)
            / (1 + pct I.discountRatePct) ^ (0 : ℕ)
        + (∑ y ∈ Finset.range I.years,
            -(snapAt I y).homeCostsB / (1 + pct I.discountRatePct) ^ (y + 1))
        + terminalB I / (1 + pct I.discountRatePct) ^ (I.years + 1) := by
  show npvAux (pct I.discountRatePct) 0 (cashflowsB I ++ [terminalB I]) = _
  rw [cashflowsB, List.cons_append]
  show (-(I.smallerHomePrice * pct I.smallerHomeClosingPct) - dpB I)
        / (1 + pct I.discountRatePct) ^ (0 : ℕ)
      + npvAux (pct I.discountRatePct) 1
          ((yearlyData I).map (fun s => -s.homeCostsB) ++ [terminalB I]) = _
  rw [npvAux_append, npvAux_map, List.length_map, length_yearlyData]
  have harith : 1 + I.years = I.years + 1 := by omega
  rw [harith, add_assoc]
  congr 2
  refine Finset.sum_congr rfl ?_
  intro i _
  have harith2 : 1 + i = i + 1 := by omega
  rw [harith2]
  rfl

theorem npvC_eq (I : Inputs) :
    npvC I
      = 0 / (1 + pct I.discountRatePct) ^ (0 : ℕ)
        + (∑ y ∈ Finset.range I.years,
            -(snapAt I y).outC / (1 + pct I.discountRatePct) ^ (y + 1))
        + terminalC I / (1 + pct I.discountRatePct) ^ (I.years + 1) := by
  show npvAux (pct I.discountRatePct) 0 (cashflowsC I ++ [terminalC I]) = _
  rw [cashflowsC, List.cons_append]
  show 0 / (1 + pct I.discountRatePct) ^ (0 : ℕ)
      + npvAux (pct I.discountRatePct) 1 ((yearlyData I).map (fun s => -s.outC) ++ [terminalC I]) = _
  rw [npvAux_append, npvAux_map, List.length_map, length_yearlyData]
  have harith : 1 + I.years = I.years + 1 := by omega
  rw [harith, add_assoc]
  congr 2
  refine Finset.sum_congr rfl ?_
  intro i _
  have harith2 : 1 + i = i + 1 := by omega
  rw [harith2]
  rfl

theorem npvD_eq (I : Inputs) :
    npvD I
      = 0 / (1 + pct I.discountRatePct) ^ (0 : ℕ)
        + (∑ y ∈ Finset.range I.years,
            -(snapAt I y).outD / (1 + pct I.discountRatePct) ^ (y + 1))
        + terminalD I / (1 + pct I.discountRatePct) ^ (I.years + 1) := by
  show npvAux (pct I.discountRatePct) 0 (cashflowsD I ++ [terminalD I]) = _
  rw [cashflowsD, List.cons_append]
  show 0 / (1 + pct I.discountRatePct) ^ (0 : ℕ)
      + npvAux (pct I.discountRatePct) 1 ((yearlyData I).map (fun s => -s.outD) ++ [terminalD I]) = _
  rw [npvAux_append, npvAux_map, List.length_map, length_yearlyData]
  have harith : 1 + I.years = I.years + 1 := by omega
  rw [harith, add_assoc]
  congr 2
  refine Finset.sum_congr rfl ?_
  intro i _
  have harith2 : 1 + i = i + 1 := by omega
  rw [harith2]
  rfl

theorem snapAt_outA (I : Inputs) (i : ℕ) (h : i < I.years) :
    (snapAt I i).outA
      = I.monthlyRent * (1 + pct I.rentAnnualInflationPct) ^ i * 12
        + (if I.includeStorage then
            I.storageMonthly * (1 + pct I.storageAnnualInflationPct) ^ i
          else 0) * 12 := by
  rw [snapAt_eq I i h, stepYear_outA, stateFrom_rent, stateFrom_storage,
    initState_rent, initState_storage]

theorem snapAt_outC (I : Inputs) (i : ℕ) (h : i < I.years) :
    (snapAt I i).outC = (snapAt I i).outA := by
  rw [snapAt_eq I i h]
  exact stepYear_outC_eq_outA I (1 + i) (stateFrom I (initState I) i)

theorem snapAt_investA (I : Inputs) (i : ℕ) (h : i < I.years) :
    (snapAt I i).investA
      = netProceeds I * pct I.investShareA * (1 + pct (investNetRate I)) ^ (i + 1) := by
  rw [snapAt_eq I i h, stepYear_investA, growAnnual_one, stateFrom_investA,
    initState_investA, pow_succ, mul_assoc]

theorem snapAt_investC (I : Inputs) (i : ℕ) (h : i < I.years) :
    (snapAt I i).investC
      = netProceeds I * pct I.investShareC * (1 + pct (investNetRate I)) ^ (i + 1) := by
  rw [snapAt_eq I i h, stepYear_investC, growAnnual_one, stateFrom_investC,
    initState_investC, pow_succ, mul_assoc]

theorem snapAt_netWorthA (I : Inputs) (i : ℕ) (h : i < I.years) :
    (snapAt I i).netWorthA = (snapAt I i).investA - (snapAt I i).outA := by
  rw [snapAt_eq I i h]
  exact stepYear_netWorthA I (1 + i) (stateFrom I (initState I) i)

theorem snapAt_netWorthC (I : Inputs) (i : ℕ) (h : i < I.years) :
    (snapAt I i).netWorthC = (snapAt I i).investC + cashC I - (snapAt I i).outC := by
  rw [snapAt_eq I i h]
  exact stepYear_netWorthC I (1 + i) (stateFrom I (initState I) i)

theorem snapAt_outD (I : Inputs) (i : ℕ) (h : i < I.years) :
    (snapAt I i).outD
      = I.keepPropertyTaxAnnual + I.keepInsuranceAnnual + I.keepHoaMonthly * 12
          + I.keepExtraMaintAnnual := by
  rw [snapAt_eq I i h]
  exact stepYear_outD I (1 + i) (stateFrom I (initState I) i)

theorem snapAt_keepHomeValue (I : Inputs) (i : ℕ) (h : i < I.years) :
    (snapAt I i).keepHomeValue
      = I.currentHomeValue * (1 + pct I.currentHomeAppreciationPct) ^ (i + 1) := by
  rw [snapAt_eq I i h, stepYear_keepHomeValue, growAnnual_one, stateFrom_keepHomeValue,
    initState_keepHomeValue, pow_succ, mul_assoc]

theorem snapAt_netWorthD (I : Inputs) (i : ℕ) (h : i < I.years) :
    (snapAt I i).netWorthD = (snapAt I i).keepHomeValue - (snapAt I i).outD := by
  rw [snapAt_eq I i h]
  exact stepYear_netWorthD I (1 + i) (stateFrom I (initState I) i)

theorem snapAt_rp (I : Inputs) (i : ℕ) (h : i < I.years) :
    (snapAt I i).remainingPrincipal = max 0 (rpYear I (i + 1)) := by
  rw [snapAt_eq I i h, stepYear_rp]
  rw [rpYear, stateFrom_rp]

theorem getLast?_eq_getD {α : Type} (d : α) :
    ∀ (l : List α), l ≠ [] → l.getLast? = some (l.getD (l.length - 1) d) := by
  intro l
  induction l with
  | nil => intro h; exact absurd rfl h
  | cons a l ih =>
    intro _
    cases l with
    | nil => rfl
    | cons b t =>
      rw [List.getLast?_cons_cons, ih (by simp)]
      have h1 : (a :: b :: t).length - 1 = t.length + 1 := by simp
      have h2 : (b :: t).length - 1 = t.length := by simp
      rw [h1, h2, List.getD_cons_succ]

theorem lastSnap_eq (I : Inputs) (m : ℕ) (h : I.years = m + 1) :
    lastSnap I = some (snapAt I m) := by
  have hne : yearlyData I ≠ [] := by
    have hl : (yearlyData I).length = m + 1 := by rw [length_yearlyData, h]
    intro hnil
    rw [hnil] at hl
    exact absurd hl (by simp)
  rw [lastSnap, getLast?_eq_getD dSnap (yearlyData I) hne]
  have hl2 : (yearlyData I).length - 1 = m := by rw [length_yearlyData, h]; omega
  rw [hl2]
  rfl

theorem terminalD_eq (I : Inputs) :
    terminalD I
      = if I.years = 0 then 0
        else I.currentHomeValue * (1 + pct I.currentHomeAppreciationPct) ^ I.years := by
  cases hy : I.years with
  | zero =>
    rw [if_pos rfl, terminalD]
    have hl : lastSnap I = none := by
      rw [lastSnap]
      have : yearlyData I = [] := by
        have := length_yearlyData I
        rw [hy] at this
        exact List.length_eq_zero.mp this
      rw [this]
      rfl
    rw [hl]
  | succ m =>
    rw [if_neg (by omega), terminalD, lastSnap_eq I m hy]
    show (snapAt I m).keepHomeValue = _
    rw [snapAt_keepHomeValue I m (by omega)]

theorem mortgagePrincipalB_nonneg (I : Inputs) : 0 ≤ mortgagePrincipalB I :=
  le_max_left 0 _

theorem monthlyMortgageRate_nonneg (I : Inputs) (hr : 0 ≤ I.mortgageRatePct) :
    0 ≤ monthlyMortgageRate I := by
  rw [monthlyMortgageRate, pct]
  positivity

theorem mortgagePayment_ge (I : Inputs) (hr : 0 ≤ I.mortgageRatePct)
    (hy : 1 ≤ I.mortgageYears) :
    mortgagePrincipalB I * monthlyMortgageRate I ≤ mortgagePayment I := by
  have hP : 0 ≤ mortgagePrincipalB I := mortgagePrincipalB_nonneg I
  have hr0 : 0 ≤ pct I.mortgageRatePct / 12 := monthlyMortgageRate_nonneg I hr
  rw [mortgagePayment, amortizationPayment, monthlyMortgageRate]
  by_cases h : pct I.mortgageRatePct / 12 = 0
  · rw [if_pos h, h, mul_zero]
    have hn : (0 : ℚ) ≤ ((I.mortgageYears * 12 : ℕ) : ℚ) := by positivity
    exact div_nonneg hP hn
  · rw [if_neg h]
    have hrpos : 0 < pct I.mortgageRatePct / 12 := lt_of_le_of_ne hr0 (Ne.symm h)
    set r := pct I.mortgageRatePct / 12 with hrdef
    have hn : I.mortgageYears * 12 ≠ 0 := by omega
    have hbase : (1 : ℚ) < (1 + r) ^ (I.mortgageYears * 12) :=
      one_lt_pow₀ (by linarith) hn
    have hzp : (1 + r) ^ (-((I.mortgageYears * 12 : ℕ) : ℤ))
        = ((1 + r) ^ (I.mortgageYears * 12))⁻¹ := by
      rw [zpow_neg, zpow_natCast]
    rw [hzp]
    have hinv0 : 0 < ((1 + r) ^ (I.mortgageYears * 12))⁻¹ := by positivity
    have hinv1 : ((1 + r) ^ (I.mortgageYears * 12))⁻¹ < 1 :=
      inv_lt_one_of_one_lt₀ hbase
    have hd0 : 0 < 1 - ((1 + r) ^ (I.mortgageYears * 12))⁻¹ := by linarith
    have hd1 : 1 - ((1 + r) ^ (I.mortgageYears * 12))⁻¹ ≤ 1 := by linarith
    rw [le_div_iff₀ hd0]
    exact mul_le_of_le_one_right (mul_nonneg hP hr0) hd1

theorem amortStep_bounds (payment mrate P bal : ℚ) (hmr : 0 ≤ mrate)
    (hpay : P * mrate ≤ payment) (hb0 : 0 ≤ bal) (hbP : bal ≤ P) :
    0 ≤ amortStep payment mrate bal ∧ amortStep payment mrate bal ≤ bal := by
  have hint : bal * mrate ≤ P * mrate := mul_le_mul_of_nonneg_right hbP hmr
  have hpp0 : 0 ≤ payment - bal * mrate := by linarith
  constructor
  · have hmin : min (payment - bal * mrate) bal ≤ bal := min_le_right _ _
    rw [amortStep]
    linarith
  · have hmin0 : 0 ≤ min (payment - bal * mrate) bal := le_min hpp0 hb0
    rw [amortStep]
    linarith

theorem amortYear_fst_bounds (payment mrate P : ℚ) (hmr : 0 ≤ mrate)
    (hpay : P * mrate ≤ payment) :
    ∀ (m : ℕ) (bal : ℚ), 0 ≤ bal → bal ≤ P →
      0 ≤ (amortYear payment mrate m bal).1 ∧ (amortYear payment mrate m bal).1 ≤ bal := by
  intro m
  induction m with
  | zero => intro bal hb0 hbP; exact ⟨hb0, le_refl bal⟩
  | succ m ih =>
    intro bal hb0 hbP
    have hstep := amortStep_bounds payment mrate P bal hmr hpay hb0 hbP
    rw [amortStep] at hstep
    simp only [amortYear]
    split_ifs with hcut
    · exact hstep
    · have hrec := ih (bal - min (payment - bal * mrate) bal) hstep.1
        (le_trans hstep.2 hbP)
      exact ⟨hrec.1, le_trans hrec.2 hstep.2⟩

theorem rpYear_zero (I : Inputs) : rpYear I 0 = mortgagePrincipalB I := rfl

theorem rpYear_succ (I : Inputs) (n : ℕ) :
    rpYear I (n + 1)
      = (amortYear (mortgagePayment I) (monthlyMortgageRate I) 12 (rpYear I n)).1 :=
  stateFrom_rp I (initState I) n

theorem rpYear_bounds (I : Inputs) (hr : 0 ≤ I.mortgageRatePct)
    (hy : 1 ≤ I.mortgageYears) :
    ∀ n, 0 ≤ rpYear I n ∧ rpYear I n ≤ mortgagePrincipalB I := by
  have hmr := monthlyMortgageRate_nonneg I hr
  have hpay := mortgagePayment_ge I hr hy
  intro n
  induction n with
  | zero => exact ⟨mortgagePrincipalB_nonneg I, le_refl _⟩
  | succ n ih =>
    rw [rpYear_succ]
    have hb := amortYear_fst_bounds (mortgagePayment I) (monthlyMortgageRate I)
      (mortgagePrincipalB I) hmr hpay 12 (rpYear I n) ih.1 ih.2
    exact ⟨hb.1, le_trans hb.2 ih.2⟩

theorem rpYear_mono (I : Inputs) (hr : 0 ≤ I.mortgageRatePct)
    (hy : 1 ≤ I.mortgageYears) (n : ℕ) :
    rpYear I (n + 1) ≤ rpYear I n := by
  have hmr := monthlyMortgageRate_nonneg I hr
  have hpay := mortgagePayment_ge I hr hy
  have hbounds := rpYear_bounds I hr hy n
  rw [rpYear_succ]
  exact (amortYear_fst_bounds (mortgagePayment I) (monthlyMortgageRate I)
    (mortgagePrincipalB I) hmr hpay 12 (rpYear I n) hbounds.1 hbounds.2).2

theorem lastSnap_none (I : Inputs) (h : I.years = 0) : lastSnap I = none := by
  rw [lastSnap]
  have hnil : yearlyData I = [] :=
    List.length_eq_zero.mp (by rw [length_yearlyData, h])
  rw [hnil]
  rfl

theorem terminalC_eq_terminalA_add (I : Inputs) (hs : I.investShareA = I.investShareC) :
    terminalC I = terminalA I + cashC I := by
  cases hy : I.years with
  | zero =>
    rw [terminalC, terminalA, lastSnap_none I hy]
  | succ m =>
    rw [terminalC, terminalA, lastSnap_eq I m hy]
    show (snapAt I m).investC + cashC I = (snapAt I m).investA + cashC I
    rw [snapAt_investC I m (by omega), snapAt_investA I m (by omega), hs]

/-- C1: each scenario's NPV is the discounted sum of a cash-flow vector whose
position 0 holds the upfront transaction (minus down payment plus closing
costs for B, zero for A, C, D), whose positions 1..N hold the negated annual
outflows, and whose terminal value sits at position N + 1, all discounted at
`(1 + r) ^ t` with `r` the fractional discount rate. -/
theorem C1_npv_structure (I : Inputs) :
    npvA I
      = 0 / (1 + pct I.discountRatePct) ^ (0 : ℕ)
        + (∑ y ∈ Finset.range I.years,
            -(snapAt I y).outA / (1 + pct I.discountRatePct) ^ (y + 1))
        + terminalA I / (1 + pct I.discountRatePct) ^ (I.years + 1)
    ∧ npvB I
      = (-(I.smallerHomePrice * pct I.smallerHomeClosingPct) - dpB I)
            / (1 + pct I.discountRatePct) ^ (0 : ℕ)
        + (∑ y ∈ Finset.range I.years,
            -(snapAt I y).homeCostsB / (1 + pct I.discountRatePct) ^ (y + 1))
        + terminalB I / (1 + pct I.discountRatePct) ^ (I.years + 1)
    ∧ npvC I
      = 0 / (1 + pct I.discountRatePct) ^ (0 : ℕ)
        + (∑ y ∈ Finset.range I.years,
            -(snapAt I y).outC / (1 + pct I.discountRatePct) ^ (y + 1))
        + terminalC I / (1 + pct I.discountRatePct) ^ (I.years + 1)
    ∧ npvD I
      = 0 / (1 + pct I.discountRatePct) ^ (0 : ℕ)
        + (∑ y ∈ Finset.range I.years,
            -(snapAt I y).outD / (1 + pct I.discountRatePct) ^ (y + 1))
        + terminalD I / (1 + pct I.discountRatePct) ^ (I.years + 1) :=
  ⟨npvA_eq I, npvB_eq I, npvC_eq I, npvD_eq I⟩

/-- C5: net proceeds equal equity before tax minus the clamped capital-gains
tax, with the two concrete consequences stated in the spec. -/
theorem C5_net_proceeds (I : Inputs) :
    netProceeds I
      = (I.currentHomeValue - I.currentMortgageBalance
          - I.currentHomeValue * pct I.sellingCostsPct)
        - max 0 (I.currentHomeValue - I.currentMortgageBalance
            - I.currentHomeValue * pct I.sellingCostsPct) * pct I.capGainsTaxPct
    ∧ (I.currentMortgageBalance = 0 → I.sellingCostsPct = 0 → I.capGainsTaxPct = 0 →
        netProceeds I = I.currentHomeValue)
    ∧ (I.currentHomeValue = 1300000 → I.currentMortgageBalance = 0 →
        I.sellingCostsPct = 6 → I.capGainsTaxPct = 0 → netProceeds I = 1222000) := by
  refine ⟨rfl, ?_, ?_⟩
  · intro hmb hsc hcg
    simp [netProceeds, pct, hmb, hsc, hcg]
  · intro hv hmb hsc hcg
    simp only [netProceeds, pct, hv, hmb, hsc, hcg]
    norm_num

/-- Witness for C5: the page's default inputs give net proceeds 1222000, and
the zero-cost input returns the sale price. -/
theorem C5_net_proceeds_witness :
    netProceeds I0 = 1222000 ∧ netProceeds I2 = I2.currentHomeValue :=
  ⟨(C5_net_proceeds I0).2.2 rfl rfl rfl rfl, (C5_net_proceeds I2).2.1 rfl rfl rfl⟩

/-- C6: the invested balance of scenarios A and C at year `y` is the invested
share of net proceeds compounded `y` times; the annual outflow is subtracted
only in the reported net-worth figure, never from the compounding balance. -/
theorem C6_invested_balance (I : Inputs) (y : ℕ) (h1 : 1 ≤ y) (h2 : y ≤ I.years) :
    (snapAt I (y - 1)).investA
        = netProceeds I * pct I.investShareA * (1 + pct (investNetRate I)) ^ y
    ∧ (snapAt I (y - 1)).investC
        = netProceeds I * pct I.investShareC * (1 + pct (investNetRate I)) ^ y
    ∧ (snapAt I (y - 1)).netWorthA
        = (snapAt I (y - 1)).investA - (snapAt I (y - 1)).outA
    ∧ (snapAt I (y - 1)).netWorthC
        = (snapAt I (y - 1)).investC + cashC I - (snapAt I (y - 1)).outC := by
  have hi : y - 1 < I.years := by omega
  have hy1 : y - 1 + 1 = y := by omega
  refine ⟨?_, ?_, snapAt_netWorthA I (y - 1) hi, snapAt_netWorthC I (y - 1) hi⟩
  · rw [snapAt_investA I (y - 1) hi, hy1]
  · rw [snapAt_investC I (y - 1) hi, hy1]

/-- Witness for C6 at the default inputs and year 1. -/
theorem C6_invested_balance_witness :
    (snapAt I0 0).investA
        = netProceeds I0 * pct I0.investShareA * (1 + pct (investNetRate I0)) ^ 1
    ∧ (snapAt I0 0).investC
        = netProceeds I0 * pct I0.investShareC * (1 + pct (investNetRate I0)) ^ 1
    ∧ (snapAt I0 0).netWorthA = (snapAt I0 0).investA - (snapAt I0 0).outA
    ∧ (snapAt I0 0).netWorthC
        = (snapAt I0 0).investC + cashC I0 - (snapAt I0 0).outC :=
  C6_invested_balance I0 1 (by decide) (by decide)

/-- C7: the annual rent/storage outflow of scenarios A and C at year `y` is
`12 * rent * (1 + inflation) ^ (y - 1)` plus the storage analogue when
storage is enabled: year 1 uses the starting figures verbatim. -/
theorem C7_outflow_inflation (I : Inputs) (y : ℕ) (h1 : 1 ≤ y) (h2 : y ≤ I.years) :
    (snapAt I (y - 1)).outA
        = 12 * I.monthlyRent * (1 + pct I.rentAnnualInflationPct) ^ (y - 1)
          + (if I.includeStorage then
              12 * I.storageMonthly * (1 + pct I.storageAnnualInflationPct) ^ (y - 1)
            else 0)
    ∧ (snapAt I (y - 1)).outC
        = 12 * I.monthlyRent * (1 + pct I.rentAnnualInflationPct) ^ (y - 1)
          + (if I.includeStorage then
              12 * I.storageMonthly * (1 + pct I.storageAnnualInflationPct) ^ (y - 1)
            else 0) := by
  have hi : y - 1 < I.years := by omega
  constructor
  · rw [snapAt_outA I (y - 1) hi]
    split_ifs <;> ring
  · rw [snapAt_outC I (y - 1) hi, snapAt_outA I (y - 1) hi]
    split_ifs <;> ring

/-- Witness for C7 at the default inputs and year 1. -/
theorem C7_outflow_inflation_witness :
    (snapAt I0 0).outA
        = 12 * I0.monthlyRent * (1 + pct I0.rentAnnualInflationPct) ^ (0 : ℕ)
          + (if I0.includeStorage then
              12 * I0.storageMonthly * (1 + pct I0.storageAnnualInflationPct) ^ (0 : ℕ)
            else 0)
    ∧ (snapAt I0 0).outC
        = 12 * I0.monthlyRent * (1 + pct I0.rentAnnualInflationPct) ^ (0 : ℕ)
          + (if I0.includeStorage then
              12 * I0.storageMonthly * (1 + pct I0.storageAnnualInflationPct) ^ (0 : ℕ)
            else 0) :=
  C7_outflow_inflation I0 1 (by decide) (by decide)

/-- C8: `amortizationPayment` is straight-line `P / n` when the monthly rate
is zero, and otherwise the annuity formula `P * r / (1 - (1 + r) ^ (-n))`
with `r` the monthly rate and `n = years * 12`. -/
theorem C8_amortization_payment (principal ratePct : ℚ) (years : ℕ) :
    (ratePct = 0 →
        amortizationPayment principal ratePct years
          = principal / ((years * 12 : ℕ) : ℚ))
    ∧ (ratePct ≠ 0 →
        amortizationPayment principal ratePct years
          = principal * (pct ratePct / 12)
              / (1 - (1 + pct ratePct / 12) ^ (-((years * 12 : ℕ) : ℤ)))) := by
  constructor
  · intro h
    have hc : pct ratePct / 12 = 0 := by rw [pct, h]; norm_num
    rw [amortizationPayment, if_pos hc]
  · intro h
    have hc : ¬ pct ratePct / 12 = 0 := by
      intro hc0
      apply h
      rw [pct] at hc0
      have h12 : ratePct = ratePct / 100 / 12 * 1200 := by ring
      rw [hc0] at h12
      simpa using h12
    rw [amortizationPayment, if_neg hc]

/-- Witness for C8: a zero-rate one-year loan pays `principal / 12`. -/
theorem C8_amortization_payment_witness :
    amortizationPayment 1200 0 1 = 1200 / ((1 * 12 : ℕ) : ℚ) :=
  (C8_amortization_payment 1200 0 1).1 rfl

/-- C3: contrary to the spec, `simulate` performs no boundary validation: on
a degenerate input with a zero-length horizon and a zero-length mortgage
term it still returns a normal output with four scenario results instead of
rejecting the parameter set. -/
theorem C3_no_rejection :
    simulate I3
      = { netProceeds := 0
          yearlyData := []
          results := [⟨SKey.A, 0, 0⟩, ⟨SKey.B, 0, 0⟩, ⟨SKey.C, 0, 0⟩,
            ⟨SKey.D, 0, 0⟩] } := by
  have hyd : yearlyData I3 = [] :=
    List.length_eq_zero.mp (by rw [length_yearlyData]; rfl)
  have hnp : netProceeds I3 = 0 := by
    rw [show netProceeds I3
        = (0 - 0 - 0 * pct 0) - max 0 (0 - 0 - 0 * pct 0) * pct 0 from rfl]
    norm_num [pct]
  have hlast : lastSnap I3 = none := lastSnap_none I3 rfl
  have hcC : cashC I3 = 0 := by rw [cashC, hnp]; ring
  have hdp : dpB I3 = 0 := by rw [dpB, hnp]; ring
  have htA : terminalA I3 = 0 := by rw [terminalA, hlast]
  have htB : terminalB I3 = 0 := by rw [terminalB, hlast]
  have htC : terminalC I3 = 0 := by
    rw [terminalC, hlast, hcC]
    norm_num
  have htD : terminalD I3 = 0 := by rw [terminalD, hlast]
  have hA : npvA I3 = 0 := by
    simp only [npvA, cashflowsA, hyd, List.map_nil, htA]
    norm_num [npv, npvAux, pct, I3]
  have hB : npvB I3 = 0 := by
    simp only [npvB, cashflowsB, hyd, List.map_nil, htB, hdp]
    norm_num [npv, npvAux, pct, I3]
  have hC : npvC I3 = 0 := by
    simp only [npvC, cashflowsC, hyd, List.map_nil, htC]
    norm_num [npv, npvAux, pct, I3]
  have hD : npvD I3 = 0 := by
    simp only [npvD, cashflowsD, hyd, List.map_nil, htD]
    norm_num [npv, npvAux, pct, I3]
  simp only [simulate, results, hnp, hyd, hA, hB, hC, hD, htA, htB, htC, htD]

/-- C2 (counterexample): with equal invested shares of 50 percent, storage
disabled and net proceeds 100, scenario C's NPV exceeds scenario A's by the
held cash, so the claimed equality fails. -/
theorem C2_counterexample :
    I2.investShareA = I2.investShareC ∧ I2.includeStorage = false
      ∧ npvA I2 ≠ npvC I2 := by
  have hnp : netProceeds I2 = 100 := by
    rw [show netProceeds I2
        = (100 - 0 - 100 * pct 0) - max 0 (100 - 0 - 100 * pct 0) * pct 0 from rfl]
    norm_num [pct]
  have hrate : investNetRate I2 = 0 := by
    norm_num [investNetRate, I2]
  have hsA : (snapAt I2 0).investA = 50 := by
    rw [snapAt_investA I2 0 (by decide), hnp, hrate]
    norm_num [pct, I2]
  have hsC : (snapAt I2 0).investC = 50 := by
    rw [snapAt_investC I2 0 (by decide), hnp, hrate]
    norm_num [pct, I2]
  have hcash : cashC I2 = 50 := by
    rw [cashC, hnp]
    norm_num [pct, I2]
  have htA : terminalA I2 = 50 := by
    rw [terminalA, lastSnap_eq I2 0 (by decide)]
    exact hsA
  have htC : terminalC I2 = 100 := by
    rw [terminalC, lastSnap_eq I2 0 (by decide)]
    show (snapAt I2 0).investC + cashC I2 = 100
    rw [hsC, hcash]
    norm_num
  have houtA : (snapAt I2 0).outA = 0 := by
    rw [snapAt_outA I2 0 (by decide)]
    norm_num [pct, I2]
  have houtC : (snapAt I2 0).outC = 0 := by
    rw [snapAt_outC I2 0 (by decide)]
    exact houtA
  have hyears : I2.years = 1 := rfl
  have hA : npvA I2 = 50 := by
    rw [npvA_eq I2, hyears, Finset.sum_range_one, houtA, htA]
    norm_num [pct, I2]
  have hC : npvC I2 = 100 := by
    rw [npvC_eq I2, hyears, Finset.sum_range_one, houtC, htC]
    norm_num [pct, I2]
  refine ⟨rfl, rfl, ?_⟩
  rw [hA, hC]
  norm_num

/-- C2 (amended): with equal invested shares and storage disabled, scenario
C's NPV equals scenario A's NPV plus the held cash
`netProceeds * (1 - investShareC / 100)` discounted at position N + 1. -/
theorem C2_equal_shares_amended (I : Inputs) (hs : I.investShareA = I.investShareC)
    (hst : I.includeStorage = false) :
    npvC I = npvA I + cashC I / (1 + pct I.discountRatePct) ^ (I.years + 1) := by
  rw [npvC_eq, npvA_eq]
  have hsum : ∀ y ∈ Finset.range I.years,
      -(snapAt I y).outC / (1 + pct I.discountRatePct) ^ (y + 1)
        = -(snapAt I y).outA / (1 + pct I.discountRatePct) ^ (y + 1) := by
    intro y hy
    rw [snapAt_outC I y (Finset.mem_range.mp hy)]
  rw [Finset.sum_congr rfl hsum, terminalC_eq_terminalA_add I hs, add_div]
  ring

/-- Witness for the amended C2 at the concrete input `I2`. -/
theorem C2_equal_shares_amended_witness :
    npvC I2 = npvA I2 + cashC I2 / (1 + pct I2.discountRatePct) ^ (I2.years + 1) :=
  C2_equal_shares_amended I2 rfl rfl

/-- C4: with a non-negative mortgage rate and a positive term, every monthly
amortization step from a reachable balance keeps the remaining principal
non-negative and non-increasing, and hence so does the yearly trace and the
snapshot sequence of scenario B. -/
theorem C4_principal_invariant (I : Inputs) (hr : 0 ≤ I.mortgageRatePct)
    (hy : 1 ≤ I.mortgageYears) :
    (∀ bal : ℚ, 0 ≤ bal → bal ≤ mortgagePrincipalB I →
        0 ≤ amortStep (mortgagePayment I) (monthlyMortgageRate I) bal
        ∧ amortStep (mortgagePayment I) (monthlyMortgageRate I) bal ≤ bal)
    ∧ (∀ n : ℕ, 0 ≤ rpYear I n ∧ rpYear I (n + 1) ≤ rpYear I n)
    ∧ (∀ i : ℕ, i + 1 < I.years →
        0 ≤ (snapAt I i).remainingPrincipal
        ∧ (snapAt I (i + 1)).remainingPrincipal ≤ (snapAt I i).remainingPrincipal) := by
  refine ⟨?_, ?_, ?_⟩
  · intro bal hb0 hbP
    exact amortStep_bounds (mortgagePayment I) (monthlyMortgageRate I)
      (mortgagePrincipalB I) bal (monthlyMortgageRate_nonneg I hr)
      (mortgagePayment_ge I hr hy) hb0 hbP
  · intro n
    exact ⟨(rpYear_bounds I hr hy n).1, rpYear_mono I hr hy n⟩
  · intro i hi
    have h1 : i < I.years := by omega
    rw [snapAt_rp I i h1, snapAt_rp I (i + 1) hi]
    exact ⟨le_max_left 0 _, max_le_max (le_refl 0) (rpYear_mono I hr hy (i + 1))⟩

/-- Witness for C4 at the default inputs. -/
theorem C4_principal_invariant_witness :
    0 ≤ rpYear I0 0 ∧ rpYear I0 1 ≤ rpYear I0 0 :=
  (C4_principal_invariant I0 (by norm_num [I0]) (by norm_num [I0])).2.1 0

/-- C10: the scenario-D result (NPV, terminal value, per-year outflow and
net worth) is identical for any two inputs that agree on the current home
value, its appreciation rate, the four keep-home carrying costs, the horizon
and the discount rate, whatever the other fields are. -/
theorem C10_scenarioD_noninterference (I J : Inputs)
    (h1 : I.currentHomeValue = J.currentHomeValue)
    (h2 : I.currentHomeAppreciationPct = J.currentHomeAppreciationPct)
    (h3 : I.keepPropertyTaxAnnual = J.keepPropertyTaxAnnual)
    (h4 : I.keepInsuranceAnnual = J.keepInsuranceAnnual)
    (h5 : I.keepHoaMonthly = J.keepHoaMonthly)
    (h6 : I.keepExtraMaintAnnual = J.keepExtraMaintAnnual)
    (h7 : I.years = J.years)
    (h8 : I.discountRatePct = J.discountRatePct) :
    npvD I = npvD J ∧ terminalD I = terminalD J
    ∧ ∀ y, y < I.years →
        (snapAt I y).outD = (snapAt J y).outD
        ∧ (snapAt I y).netWorthD = (snapAt J y).netWorthD := by
  have hterm : terminalD I = terminalD J := by
    rw [terminalD_eq, terminalD_eq, h1, h2, h7]
  have hout : ∀ y, y < I.years → (snapAt I y).outD = (snapAt J y).outD := by
    intro y hyI
    have hyJ : y < J.years := h7 ▸ hyI
    rw [snapAt_outD I y hyI, snapAt_outD J y hyJ, h3, h4, h5, h6]
  refine ⟨?_, hterm, ?_⟩
  · have hsum : (∑ y ∈ Finset.range J.years,
          -(snapAt I y).outD / (1 + pct J.discountRatePct) ^ (y + 1))
        = ∑ y ∈ Finset.range J.years,
            -(snapAt J y).outD / (1 + pct J.discountRatePct) ^ (y + 1) := by
      refine Finset.sum_congr rfl ?_
      intro y hy
      rw [hout y (by rw [h7]; exact Finset.mem_range.mp hy)]
    rw [npvD_eq, npvD_eq, h7, h8, hterm, hsum]
  · intro y hyI
    have hyJ : y < J.years := h7 ▸ hyI
    refine ⟨hout y hyI, ?_⟩
    rw [snapAt_netWorthD I y hyI, snapAt_netWorthD J y hyJ, hout y hyI,
      snapAt_keepHomeValue I y hyI, snapAt_keepHomeValue J y hyJ, h1, h2]

/-- Witness for C10: the default inputs and a variant differing in many
non-D fields give the same scenario-D NPV. -/
theorem C10_scenarioD_noninterference_witness : npvD I0 = npvD I0q :=
  (C10_scenarioD_noninterference I0 I0q rfl rfl rfl rfl rfl rfl rfl rfl).1

/-- C9: the selected best scenario is a result with maximal NPV, and it is
the first maximal one in the fixed order A, B, C, D (the stable sort keeps
source order among NPV ties, so every earlier result has strictly smaller
NPV). -/
theorem C9_best_scenario (I : Inputs) :
    bestScenario I ∈ results I
    ∧ (∀ res ∈ results I, res.npv ≤ (bestScenario I).npv)
    ∧ ∃ i, i < (results I).length
        ∧ (results I).getD i default = bestScenario I
        ∧ ∀ j, j < i →
            ((results I).getD j default).npv < (bestScenario I).npv := by
  by_cases h1 : npvA I < npvB I
  · by_cases h2 : npvB I < npvC I
    · by_cases h3 : npvC I < npvD I
      · have hbest : bestScenario I = ⟨SKey.D, npvD I, terminalD I⟩ := by
          simp [bestScenario, sortByNpvDesc, results, insertByNpv, h1, h2, h3]
        refine ⟨?_, ?_, 3, by simp [results], by rw [hbest]; rfl, ?_⟩
        · rw [hbest]
          simp [results]
        · intro res hres
          rw [hbest]
          simp only [results, List.mem_cons, List.not_mem_nil, or_false] at hres
          rcases hres with rfl | rfl | rfl | rfl
          · exact show npvA I ≤ npvD I by linarith
          · exact show npvB I ≤ npvD I by linarith
          · exact show npvC I ≤ npvD I by linarith
          · exact le_refl _
        · intro j hj
          rw [hbest]
          interval_cases j
          · exact show npvA I < npvD I by linarith
          · exact show npvB I < npvD I by linarith
          · exact show npvC I < npvD I by linarith
      · have hbest : bestScenario I = ⟨SKey.C, npvC I, terminalC I⟩ := by
          simp [bestScenario, sortByNpvDesc, results, insertByNpv, h1, h2, h3]
        rw [not_lt] at h3
        refine ⟨?_, ?_, 2, by simp [results], by rw [hbest]; rfl, ?_⟩
        · rw [hbest]
          simp [results]
        · intro res hres
          rw [hbest]
          simp only [results, List.mem_cons, List.not_mem_nil, or_false] at hres
          rcases hres with rfl | rfl | rfl | rfl
          · exact show npvA I ≤ npvC I by linarith
          · exact show npvB I ≤ npvC I by linarith
          · exact le_refl _
          · exact show npvD I ≤ npvC I by linarith
        · intro j hj
          rw [hbest]
          interval_cases j
          · exact show npvA I < npvC I by linarith
          · exact show npvB I < npvC I by linarith
    · by_cases h3 : npvB I < npvD I
      · have hbest : bestScenario I = ⟨SKey.D, npvD I, terminalD I⟩ := by
          simp [bestScenario, sortByNpvDesc, results, insertByNpv, h1, h2, h3]
        rw [not_lt] at h2
        refine ⟨?_, ?_, 3, by simp [results], by rw [hbest]; rfl, ?_⟩
        · rw [hbest]
          simp [results]
        · intro res hres
          rw [hbest]
          simp only [results, List.mem_cons, List.not_mem_nil, or_false] at hres
          rcases hres with rfl | rfl | rfl | rfl
          · exact show npvA I ≤ npvD I by linarith
          · exact show npvB I ≤ npvD I by linarith
          · exact show npvC I ≤ npvD I by linarith
          · exact le_refl _
        · intro j hj
          rw [hbest]
          interval_cases j
          · exact show npvA I < npvD I by linarith
          · exact show npvB I < npvD I by linarith
          · exact show npvC I < npvD I by linarith
      · have hbest : bestScenario I = ⟨SKey.B, npvB I, terminalB I⟩ := by
          simp [bestScenario, sortByNpvDesc, results, insertByNpv, h1, h2, h3]
        rw [not_lt] at h2 h3
        refine ⟨?_, ?_, 1, by simp [results], by rw [hbest]; rfl, ?_⟩
        · rw [hbest]
          simp [results]
        · intro res hres
          rw [hbest]
          simp only [results, List.mem_cons, List.not_mem_nil, or_false] at hres
          rcases hres with rfl | rfl | rfl | rfl
          · exact show npvA I ≤ npvB I by linarith
          · exact le_refl _
          · exact show npvC I ≤ npvB I by linarith
          · exact show npvD I ≤ npvB I by linarith
        · intro j hj
          rw [hbest]
          interval_cases j
          · exact show npvA I < npvB I by linarith
  · by_cases h2 : npvA I < npvC I
    · by_cases h3 : npvC I < npvD I
      · have hbest : bestScenario I = ⟨SKey.D, npvD I, terminalD I⟩ := by
          simp [bestScenario, sortByNpvDesc, results, insertByNpv, h1, h2, h3]
        rw [not_lt] at h1
        refine ⟨?_, ?_, 3, by simp [results], by rw [hbest]; rfl, ?_⟩
        · rw [hbest]
          simp [results]
        · intro res hres
          rw [hbest]
          simp only [results, List.mem_cons, List.not_mem_nil, or_false] at hres
          rcases hres with rfl | rfl | rfl | rfl
          · exact show npvA I ≤ npvD I by linarith
          · exact show npvB I ≤ npvD I by linarith
          · exact show npvC I ≤ npvD I by linarith
          · exact le_refl _
        · intro j hj
          rw [hbest]
          interval_cases j
          · exact show npvA I < npvD I by linarith
          · exact show npvB I < npvD I by linarith
          · exact show npvC I < npvD I by linarith
      · have hbest : bestScenario I = ⟨SKey.C, npvC I, terminalC I⟩ := by
          simp [bestScenario, sortByNpvDesc, results, insertByNpv, h1, h2, h3]
        rw [not_lt] at h1 h3
        refine ⟨?_, ?_, 2, by simp [results], by rw [hbest]; rfl, ?_⟩
        · rw [hbest]
          simp [results]
        · intro res hres
          rw [hbest]
          simp only [results, List.mem_cons, List.not_mem_nil, or_false] at hres
          rcases hres with rfl | rfl | rfl | rfl
          · exact show npvA I ≤ npvC I by linarith
          · exact show npvB I ≤ npvC I by linarith
          · exact le_refl _
          · exact show npvD I ≤ npvC I by linarith
        · intro j hj
          rw [hbest]
          interval_cases j
          · exact show npvA I < npvC I by linarith
          · exact show npvB I < npvC I by linarith
    · by_cases h3 : npvA I < npvD I
      · have hbest : bestScenario I = ⟨SKey.D, npvD I, terminalD I⟩ := by
          simp [bestScenario, sortByNpvDesc, results, insertByNpv, h1, h2, h3]
        rw [not_lt] at h1 h2
        refine ⟨?_, ?_, 3, by simp [results], by rw [hbest]; rfl, ?_⟩
        · rw [hbest]
          simp [results]
        · intro res hres
          rw [hbest]
          simp only [results, List.mem_cons, List.not_mem_nil, or_false] at hres
          rcases hres with rfl | rfl | rfl | rfl
          · exact show npvA I ≤ npvD I by linarith
          · exact show npvB I ≤ npvD I by linarith
          · exact show npvC I ≤ npvD I by linarith
          · exact le_refl _
        · intro j hj
          rw [hbest]
          interval_cases j
          · exact show npvA I < npvD I by linarith
          · exact show npvB I < npvD I by linarith
          · exact show npvC I < npvD I by linarith
      · have hbest : bestScenario I = ⟨SKey.A, npvA I, terminalA I⟩ := by
          simp [bestScenario, sortByNpvDesc, results, insertByNpv, h1, h2, h3]
        rw [not_lt] at h1 h2 h3
        refine ⟨?_, ?_, 0, by simp [results], by rw [hbest]; rfl, ?_⟩
        · rw [hbest]
          simp [results]
        · intro res hres
          rw [hbest]
          simp only [results, List.mem_cons, List.not_mem_nil, or_false] at hres
          rcases hres with rfl | rfl | rfl | rfl
          · exact le_refl _
          · exact show npvB I ≤ npvA I by linarith
          · exact show npvC I ≤ npvA I by linarith
          · exact show npvD I ≤ npvA I by linarith
        · intro j hj
          omega

end Downsize
